import Mathlib

/-!
Verification of the case-management rule logic of this repository.

The development shallowly embeds the decision logic of the two server-side
validation plugins and the client-side form scripts:

* `SingleActiveCaseEnforcement` — the C# plugin rejecting a new case when the
  customer already has an active case
  (src/s2_plugin/SingleActiveCaseEnforcement/SingleActiveCaseEnforcementPlugin.cs).
* `IncidentPrimaryContactValidation` — the C# plugin requiring the contact of
  a case to be associated with the customer account.
* `ClientScripts` — the JavaScript form scripts deriving the contact lookup
  value from the customer field and computing communication-channel
  availability.

Remote services (Dataverse organisation service, Xrm WebApi) are modelled as
explicit function arguments; exceptions become `Except` errors.  Definitions
come first; the theorems settling the specification claims follow.
-/

/-- The error outcomes a plugin evaluation can surface.  `ruleViolation`
models `InvalidPluginExecutionException` (a business-rule failure shown to
the user); `infrastructure` models a fault propagated from the organisation
service; `nullReference` models an unguarded null dereference aborting the
evaluation; `argument` models `ArgumentException` on malformed input. -/
inductive PluginError where
  | ruleViolation (message : String)
  | infrastructure (message : String)
  | nullReference
  | argument (message : String)
deriving DecidableEq, Repr

/-- The `Microsoft.Xrm.Sdk.EntityReference` fields the code reads: the record
id (`Id`, a Guid modelled as `Nat`) and the table logical name. -/
structure EntityReference where
  id : Nat
  logicalName : String
deriving DecidableEq, Repr

namespace SingleActiveCaseEnforcement

/-- The `Case` model class of the SingleActiveCaseEnforcement plugin: the
`title`, `customerid` and `statecode` attributes, each possibly absent
(`GetAttributeValue` returns null for a missing attribute). -/
structure Case where
  Title : Option String
  Customer : Option EntityReference
  Status : Option Int
deriving DecidableEq, Repr

/-- One stored case row as seen by the query of the plugin: the attributes
that the filter conditions and the column set touch. -/
structure CaseRow where
  title : Option String
  customerId : Option Nat
  statecode : Option Int
deriving DecidableEq, Repr

/-- Embeds `RetrieveActiveCaseForCustomerOrNull`: query the store for cases
whose `statecode` equals 0 (active) and whose `customerid` equals the given
customer id, with `TopCount = 1`; return the first match or null.  An `Equal`
condition never matches a row whose attribute is absent. -/
def RetrieveActiveCaseForCustomerOrNull (store : List CaseRow)
    (customerId : Nat) : Option CaseRow :=
  (store.filter fun r =>
    r.statecode == some 0 && r.customerId == some customerId).head?

/-- Embeds `GuardThatCustomerHasNoActiveCases`.  The source reads
`targetCase.Customer.Id` with no null guard, so a null customer aborts with a
null-reference fault; when the query finds an active case the plugin throws
`InvalidPluginExecutionException` whose message appends the title of the
found case (string concatenation with a null title appends nothing). -/
def GuardThatCustomerHasNoActiveCases (targetCase : Case)
    (store : List CaseRow) : Except PluginError Unit :=
  match targetCase.Customer with
  | none => .error .nullReference
  | some customer =>
    match RetrieveActiveCaseForCustomerOrNull store customer.id with
    | none => .ok ()
    | some found =>
        .error (.ruleViolation
          ("An active case already exists for this customer: "
            ++ found.title.getD ""))

end SingleActiveCaseEnforcement

namespace IncidentPrimaryContactValidation

/-- The `Case` model class of the IncidentPrimaryContactValidation plugin:
the `primarycontactid` and `customerid` attributes, each possibly null. -/
structure Case where
  Contact : Option EntityReference
  Customer : Option EntityReference
deriving DecidableEq, Repr

/-- The `Target` input entity of a create or update message, restricted to
the two attributes the plugin reads.  Each field is `none` when the attribute
is absent from the target, and otherwise carries the attribute value, itself
possibly null. -/
structure TargetEntity where
  contactAttr : Option (Option EntityReference)
  customerAttr : Option (Option EntityReference)
deriving DecidableEq, Repr

/-- Embeds `GetPreEntityImage`: return the registered pre-entity image as a
`Case` when present, and an empty `Case` (both fields null) otherwise. -/
def GetPreEntityImage (preEntityImages : Option Case) : Case :=
  preEntityImages.getD ⟨none, none⟩

/-- Embeds `GetCaseAfterCreateOrUpdate`: a missing target raises
`ArgumentException`; otherwise, for each of the contact and customer fields,
the value of the target attribute overwrites the pre-image field whenever the
target carries that attribute. -/
def GetCaseAfterCreateOrUpdate (preEntityImage : Case)
    (inputTarget : Option TargetEntity) : Except PluginError Case :=
  match inputTarget with
  | none => .error (.argument "Target is null")
  | some entity =>
      .ok { Contact := match entity.contactAttr with
              | some v => v
              | none => preEntityImage.Contact
            Customer := match entity.customerAttr with
              | some v => v
              | none => preEntityImage.Customer }

/-- Embeds `ValidateContactField`.  The organisation service is the function
`service`: retrieving the contact record and reading its `parentcustomerid`
attribute either faults with an infrastructure error or yields the attribute
value (null when absent).  The second component of the result lists the ids
of the contact records the evaluation retrieved. -/
def ValidateContactField (targetCase : Case)
    (service : Nat → Except String (Option EntityReference)) :
    Except PluginError Unit × List Nat :=
  match targetCase.Contact, targetCase.Customer with
  | some contactValue, some customerValue =>
      if customerValue.logicalName ≠ "account" then (.ok (), [])
      else
        match service contactValue.id with
        | .error e => (.error (.infrastructure e), [contactValue.id])
        | .ok contactParentAccountValue =>
            match contactParentAccountValue with
            | none =>
                (.error (.ruleViolation
                  "The contact is not associated with the customer."),
                 [contactValue.id])
            | some parent =>
                if parent.id ≠ customerValue.id then
                  (.error (.ruleViolation
                    "The contact is not associated with the customer."),
                   [contactValue.id])
                else (.ok (), [contactValue.id])
  | _, _ => (.ok (), [])

end IncidentPrimaryContactValidation

namespace ClientScripts

/-- A JavaScript value of the primitive shapes the scripts handle: undefined,
null, a boolean, a string or a number. -/
inductive JsValue where
  | undef
  | null
  | bool (b : Bool)
  | str (s : String)
  | num (n : Int)
deriving DecidableEq, Repr

/-- The JavaScript `typeof` operator on the modelled value shapes. -/
def typeOf : JsValue → String
  | .undef => "undefined"
  | .null => "object"
  | .bool _ => "boolean"
  | .str _ => "string"
  | .num _ => "number"

/-- JavaScript truthiness of the modelled value shapes. -/
def toBool : JsValue → Bool
  | .undef => false
  | .null => false
  | .bool b => b
  | .str s => s != ""
  | .num n => n != 0

/-- Models `String.prototype.trim` of JavaScript: drop leading and trailing
whitespace characters.  Stated on the character list so that the kernel can
evaluate it on literals. -/
def jsTrim (s : String) : String :=
  ⟨((s.data.dropWhile Char.isWhitespace).reverse.dropWhile
      Char.isWhitespace).reverse⟩

/-- Embeds `isContactMethodAvailable` from the communication-channels script:
return false when the channel value is falsy, is not a string, or the
do-not-contact preference is not a boolean; otherwise the channel is
available when the preference is false and the trimmed value is non-empty. -/
def isContactMethodAvailable (channelValue doNotContactPreference : JsValue) :
    Bool :=
  if !(toBool channelValue)
      || typeOf channelValue != "string"
      || typeOf doNotContactPreference != "boolean" then
    false
  else
    match channelValue, doNotContactPreference with
    | .str s, .bool b => !b && (jsTrim s != "")
    | _, _ => false

/-- The fields of a retrieved contact record that the communication-channels
script reads, each an arbitrary JavaScript value. -/
structure JsContactRecord where
  mobilephone : JsValue
  emailaddress1 : JsValue
  donotphone : JsValue
  donotemail : JsValue
deriving DecidableEq, Repr

/-- The availability object built by `getContactMethodAvailability`. -/
structure ChannelAvailability where
  mobilePhone : Bool
  emailAddress : Bool
deriving DecidableEq, Repr

/-- Embeds `getContactMethodAvailability`: both channels unavailable for a
null contact; otherwise each channel availability comes from
`isContactMethodAvailable` on the channel value and its preference flag. -/
def getContactMethodAvailability (contact : Option JsContactRecord) :
    ChannelAvailability :=
  match contact with
  | none => ⟨false, false⟩
  | some c =>
      ⟨isContactMethodAvailable c.mobilephone c.donotphone,
       isContactMethodAvailable c.emailaddress1 c.donotemail⟩

/-- Modelled from the spec (claim wording for `channelAvailability`): a
channel is available exactly when its value is a non-empty-after-trim string
and the do-not-contact flag is false or absent.  Used only to compare the
spec wording against `isContactMethodAvailable`. -/
def specChannelAvailable (channelValue doNotContactFlag : JsValue) : Bool :=
  (match channelValue with
   | .str s => jsTrim s != ""
   | _ => false)
  && (doNotContactFlag == .bool false || doNotContactFlag == .undef)

/-- Embeds `updateCaseEmailField`: returns the pair of the visibility set on
the email control and the requirement level set on the email attribute.  The
email field is shown and required exactly when no channel is available. -/
def updateCaseEmailField (availableContactMethods : ChannelAvailability) :
    Bool × String :=
  let isNoContactCommunicationChannelsAvailable :=
    !availableContactMethods.mobilePhone
      && !availableContactMethods.emailAddress
  (isNoContactCommunicationChannelsAvailable,
   if isNoContactCommunicationChannelsAvailable then "required" else "none")

/-- A lookup value as produced and consumed by the form scripts: id, display
name and entity type. -/
structure Lookup where
  id : Nat
  name : String
  entityType : String
deriving DecidableEq, Repr

/-- The expanded `primarycontactid` navigation property of a retrieved
account record: the contact id and full name selected by the query. -/
structure ContactExpand where
  contactid : Nat
  fullname : String
deriving DecidableEq, Repr

/-- A retrieved account record, restricted to the expanded primary-contact
property the scripts read (null when the account has no primary contact). -/
structure AccountRecord where
  primarycontactid : Option ContactExpand
deriving DecidableEq, Repr

/-- Embeds `_buildPrimaryContactLookupFromAccountRecord`: when the account
record and its primary contact are present, a one-element lookup array with
the contact id, full name and entity type "contact"; otherwise null. -/
def buildPrimaryContactLookupFromAccountRecord
    (accountRecord : Option AccountRecord) : Option (List Lookup) :=
  match accountRecord with
  | some acct =>
      match acct.primarycontactid with
      | some contact => some [⟨contact.contactid, contact.fullname, "contact"⟩]
      | none => none
  | none => none

/-- Embeds `_getPrimaryContactLookupValueFromAccount`: retrieve the account
record (the store returns `none` when the WebApi call fails) and build the
primary-contact lookup from it. -/
def getPrimaryContactLookupValueFromAccount
    (store : Nat → Option AccountRecord) (accountId : Nat) :
    Except Unit (Option (List Lookup)) :=
  match store accountId with
  | none => .error ()
  | some account => .ok (buildPrimaryContactLookupFromAccountRecord (some account))

/-- Embeds `_readCustomerField`: the first element of the customer lookup
array when the array is non-null and non-empty, and null otherwise. -/
def readCustomerField (customerFieldValue : Option (List Lookup)) :
    Option Lookup :=
  match customerFieldValue with
  | some (x :: _) => some x
  | _ => none

/-- Embeds `_getContactLookupValueFromCustomerField` of the
`caseFormCustomerContactConnector` script variant: read the customer field;
when its entity type is not "account" (including a null customer) return
null, otherwise resolve the primary contact of the account. -/
def connectorGetContactLookupValueFromCustomerField
    (store : Nat → Option AccountRecord)
    (customerFieldValue : Option (List Lookup)) :
    Except Unit (Option (List Lookup)) :=
  match readCustomerField customerFieldValue with
  | some c =>
      if c.entityType = "account" then
        getPrimaryContactLookupValueFromAccount store c.id
      else .ok none
  | none => .ok none

/-- Embeds `_getContactLookupValueFromCustomerField` of the
`caseFormAutomaticContactPopulation` script variants: when the customer field
holds a non-empty array whose first element is account-typed, resolve the
primary contact of the account; otherwise return the raw customer field value
unchanged.  Error payloads of the failing retrieve are abstracted to `Unit`,
and the undefined result of one variant is identified with null. -/
def populationGetContactLookupValueFromCustomerField
    (store : Nat → Option AccountRecord)
    (customerFieldValue : Option (List Lookup)) :
    Except Unit (Option (List Lookup)) :=
  match customerFieldValue with
  | some (x :: _) =>
      if x.entityType = "account" then
        getPrimaryContactLookupValueFromAccount store x.id
      else .ok customerFieldValue
  | _ => .ok customerFieldValue

end ClientScripts

namespace SingleActiveCaseEnforcement

/-- C1: for every case record with a non-null customer reference, the guard
passes when the active-case query for the id of that customer returns no
match; when a match exists it fails with a `ruleViolation` whose message
contains the title of the matched case. -/
theorem singleActiveCase_evaluate_spec
    (title : Option String) (status : Option Int) (customer : EntityReference)
    (store : List CaseRow) :
    (RetrieveActiveCaseForCustomerOrNull store customer.id = none →
      GuardThatCustomerHasNoActiveCases ⟨title, some customer, status⟩ store
        = .ok ())
    ∧ (∀ row, RetrieveActiveCaseForCustomerOrNull store customer.id = some row →
        GuardThatCustomerHasNoActiveCases ⟨title, some customer, status⟩ store
          = .error (.ruleViolation
              ("An active case already exists for this customer: "
                ++ row.title.getD ""))
        ∧ ∀ t, row.title = some t →
            ∃ pre, ("An active case already exists for this customer: "
              ++ row.title.getD "") = pre ++ t) := by
  constructor
  · intro h
    simp [GuardThatCustomerHasNoActiveCases, h]
  · intro row h
    refine ⟨by simp [GuardThatCustomerHasNoActiveCases, h], ?_⟩
    intro t ht
    exact ⟨"An active case already exists for this customer: ", by simp [ht]⟩

/-- Witness for `singleActiveCase_evaluate_spec` at a concrete store holding
one active case titled "Billing dispute" for customer 42. -/
theorem singleActiveCase_evaluate_spec_witness :
    GuardThatCustomerHasNoActiveCases
        ⟨some "New case", some ⟨42, "account"⟩, some 0⟩
        [⟨some "Billing dispute", some 42, some 0⟩]
      = .error (.ruleViolation
          ("An active case already exists for this customer: "
            ++ (some "Billing dispute").getD "")) :=
  ((singleActiveCase_evaluate_spec (some "New case") (some 0) ⟨42, "account"⟩
      [⟨some "Billing dispute", some 42, some 0⟩]).2
    ⟨some "Billing dispute", some 42, some 0⟩ (by decide)).1

/-- C10: for every case record whose customer reference is null, the guard
neither passes nor produces a rule violation: it aborts with a null-reference
fault, for every state of the record store. -/
theorem singleActiveCase_null_customer_fault
    (title : Option String) (status : Option Int) (store : List CaseRow) :
    GuardThatCustomerHasNoActiveCases ⟨title, none, status⟩ store
        = .error .nullReference
    ∧ (∀ m, (Except.error PluginError.nullReference : Except PluginError Unit)
        ≠ .error (.ruleViolation m))
    ∧ (Except.error PluginError.nullReference : Except PluginError Unit)
        ≠ .ok () := by
  refine ⟨rfl, ?_, by intro h; cases h⟩
  intro m h
  cases h

/-- Witness for `singleActiveCase_null_customer_fault` on a concrete store. -/
theorem singleActiveCase_null_customer_fault_witness :
    GuardThatCustomerHasNoActiveCases ⟨some "New case", none, some 0⟩
        [⟨some "Billing dispute", some 42, some 0⟩]
      = .error .nullReference :=
  (singleActiveCase_null_customer_fault (some "New case") (some 0)
      [⟨some "Billing dispute", some 42, some 0⟩]).1

end SingleActiveCaseEnforcement

namespace IncidentPrimaryContactValidation

/-- C3: the consistency rule passes and performs no lookup whenever the
contact is null, the customer is null, or the customer is not account-typed,
regardless of the contact value and of the organisation service. -/
theorem contactConsistency_not_applicable
    (targetCase : Case)
    (service : Nat → Except String (Option EntityReference))
    (h : targetCase.Contact = none ∨ targetCase.Customer = none
      ∨ ∀ c, targetCase.Customer = some c → c.logicalName ≠ "account") :
    ValidateContactField targetCase service = (.ok (), []) := by
  obtain ⟨ct, cu⟩ := targetCase
  cases ct with
  | none => cases cu <;> rfl
  | some contactValue =>
    cases cu with
    | none => rfl
    | some customerValue =>
      rcases h with h | h | h
      · exact absurd h (by simp)
      · exact absurd h (by simp)
      · have hne := h customerValue rfl
        unfold ValidateContactField
        simp [hne]

/-- Witness for `contactConsistency_not_applicable` on a case whose customer
is contact-typed. -/
theorem contactConsistency_not_applicable_witness :
    ValidateContactField ⟨some ⟨1, "contact"⟩, some ⟨2, "contact"⟩⟩
        (fun _ => .ok none)
      = (.ok (), []) :=
  contactConsistency_not_applicable ⟨some ⟨1, "contact"⟩, some ⟨2, "contact"⟩⟩
    (fun _ => .ok none)
    (Or.inr (Or.inr (fun c hc => by cases hc; decide)))

/-- C2 (amended): for a case whose contact and customer are both set and
whose customer is account-typed, when the lookup yields the parent-account
value `parentOpt`, the rule fails with the violation message
"The contact is not associated with the customer." exactly when `parentOpt`
is null or its id differs from the customer id, and passes otherwise. -/
theorem contactConsistency_fail_iff
    (contactValue customerValue : EntityReference)
    (parentOpt : Option EntityReference)
    (hacct : customerValue.logicalName = "account") :
    ((ValidateContactField ⟨some contactValue, some customerValue⟩
        (fun _ => .ok parentOpt)).1
      = .error (.ruleViolation
          "The contact is not associated with the customer.")
      ↔ parentOpt = none
        ∨ ∃ p, parentOpt = some p ∧ p.id ≠ customerValue.id)
    ∧ ((ValidateContactField ⟨some contactValue, some customerValue⟩
        (fun _ => .ok parentOpt)).1 = .ok ()
      ↔ ∃ p, parentOpt = some p ∧ p.id = customerValue.id) := by
  unfold ValidateContactField
  cases parentOpt with
  | none => simp [hacct]
  | some p =>
    by_cases hid : p.id = customerValue.id <;> simp [hacct, hid]

/-- Witness for `contactConsistency_fail_iff`: parent account 3 differs from
customer 2, so the rule fails with the violation. -/
theorem contactConsistency_fail_iff_witness :
    (ValidateContactField ⟨some ⟨1, "contact"⟩, some ⟨2, "account"⟩⟩
        (fun _ => .ok (some ⟨3, "account"⟩))).1
      = .error (.ruleViolation
          "The contact is not associated with the customer.") :=
  ((contactConsistency_fail_iff ⟨1, "contact"⟩ ⟨2, "account"⟩
      (some ⟨3, "account"⟩) rfl).1).mpr
    (Or.inr ⟨⟨3, "account"⟩, rfl, by decide⟩)

/-- C2 (counterexample): on a concrete mismatching input the rule fails, but
the violation message is the message of the source, not the message quoted in
the claim, so the claim as stated is false at this input. -/
theorem contactConsistency_message_counterexample :
    (∃ m, (ValidateContactField ⟨some ⟨1, "contact"⟩, some ⟨2, "account"⟩⟩
        (fun _ => .ok (some ⟨3, "account"⟩))).1
      = .error (.ruleViolation m)
      ∧ m ≠ "contact not associated with customer")
    ∧ (ValidateContactField ⟨some ⟨1, "contact"⟩, some ⟨2, "account"⟩⟩
        (fun _ => .ok (some ⟨3, "account"⟩))).1
      ≠ .error (.ruleViolation "contact not associated with customer") := by
  refine ⟨⟨"The contact is not associated with the customer.", rfl, by decide⟩, ?_⟩
  intro h
  have h2 : (Except.error (PluginError.ruleViolation
        "The contact is not associated with the customer.")
      : Except PluginError Unit)
      = .error (.ruleViolation "contact not associated with customer") := h
  injection h2 with h3
  injection h3 with h4
  exact absurd h4 (by decide)

/-- C8: when the customer is account-typed, the contact is set, and the
contact lookup fails, the rule propagates an infrastructure error: the result
is the propagated fault, which is never a rule violation and never a pass. -/
theorem contactConsistency_lookup_failure
    (contactValue customerValue : EntityReference)
    (service : Nat → Except String (Option EntityReference)) (e : String)
    (hacct : customerValue.logicalName = "account")
    (hsvc : service contactValue.id = .error e) :
    (ValidateContactField ⟨some contactValue, some customerValue⟩ service).1
        = .error (.infrastructure e)
    ∧ (∀ m, PluginError.infrastructure e ≠ .ruleViolation m)
    ∧ (ValidateContactField ⟨some contactValue, some customerValue⟩ service).1
        ≠ .ok () := by
  have h1 : (ValidateContactField ⟨some contactValue, some customerValue⟩
      service).1 = .error (.infrastructure e) := by
    unfold ValidateContactField
    simp [hacct, hsvc]
  refine ⟨h1, ?_, ?_⟩
  · intro m h
    cases h
  · rw [h1]
    intro h
    cases h

/-- Witness for `contactConsistency_lookup_failure` with a service that
always faults. -/
theorem contactConsistency_lookup_failure_witness :
    (ValidateContactField ⟨some ⟨1, "contact"⟩, some ⟨2, "account"⟩⟩
        (fun _ => .error "service unavailable")).1
      = .error (.infrastructure "service unavailable") :=
  (contactConsistency_lookup_failure ⟨1, "contact"⟩ ⟨2, "account"⟩
      (fun _ => .error "service unavailable") "service unavailable" rfl rfl).1

/-- C7: the case snapshot evaluated by the rule is the pre-existing image
overlaid with the explicit field values of the target: each evaluated field
equals the value of the target attribute when the target carries it, and the
pre-image value (null when no pre-image exists) otherwise. -/
theorem caseSnapshot_overlay (pre : Option Case) (target : TargetEntity) :
    GetCaseAfterCreateOrUpdate (GetPreEntityImage pre) (some target)
      = .ok ⟨(match target.contactAttr, pre with
              | some v, _ => v
              | none, some p => p.Contact
              | none, none => none),
             (match target.customerAttr, pre with
              | some v, _ => v
              | none, some p => p.Customer
              | none, none => none)⟩ := by
  obtain ⟨ca, cu⟩ := target
  cases pre <;> cases ca <;> cases cu <;> rfl

/-- Witness for `caseSnapshot_overlay`: the target clears the contact
explicitly and is silent about the customer, so the snapshot has a null
contact and keeps the customer of the pre-image. -/
theorem caseSnapshot_overlay_witness :
    GetCaseAfterCreateOrUpdate
        (GetPreEntityImage (some ⟨some ⟨1, "contact"⟩, some ⟨2, "account"⟩⟩))
        (some ⟨some none, none⟩)
      = .ok ⟨none, some ⟨2, "account"⟩⟩ :=
  caseSnapshot_overlay (some ⟨some ⟨1, "contact"⟩, some ⟨2, "account"⟩⟩)
    ⟨some none, none⟩

end IncidentPrimaryContactValidation

namespace ClientScripts

/-- Characterises `isContactMethodAvailable`: a channel is available exactly
when the value is a string whose trimmed form is non-empty and the preference
flag is the boolean false. -/
theorem isContactMethodAvailable_eq_true_iff (v flag : JsValue) :
    isContactMethodAvailable v flag = true ↔
      (∃ s, v = .str s ∧ jsTrim s ≠ "") ∧ flag = .bool false := by
  cases v <;> cases flag <;>
    simp [isContactMethodAvailable, toBool, typeOf]
  case str.bool s b =>
    constructor
    · rintro ⟨_, hb, ht⟩
      exact ⟨ht, hb⟩
    · rintro ⟨ht, hb⟩
      refine ⟨?_, hb, ht⟩
      intro hs
      subst hs
      exact ht (by decide)

/-- C4 (counterexample): for a non-empty phone value with an absent
do-not-phone flag, the spec-worded predicate marks the channel available but
the code marks it unavailable. -/
theorem channelAvailability_absent_flag_counterexample :
    specChannelAvailable (.str "07700 900123") .undef = true
    ∧ isContactMethodAvailable (.str "07700 900123") .undef = false
    ∧ getContactMethodAvailability
        (some ⟨.str "07700 900123", .undef, .undef, .undef⟩)
      = ⟨false, false⟩ := by
  decide

/-- C4 (amended): `getContactMethodAvailability` marks a channel available
exactly when the channel value is a string that is non-empty after trimming
and the do-not-contact flag is the boolean false (an absent flag makes the
channel unavailable); in particular an empty or whitespace-only value yields
unavailable even when the flag is false. -/
theorem channelAvailability_spec (c : JsContactRecord) :
    ((getContactMethodAvailability (some c)).mobilePhone = true ↔
      (∃ s, c.mobilephone = .str s ∧ jsTrim s ≠ "") ∧ c.donotphone = .bool false)
    ∧ ((getContactMethodAvailability (some c)).emailAddress = true ↔
      (∃ s, c.emailaddress1 = .str s ∧ jsTrim s ≠ "")
        ∧ c.donotemail = .bool false)
    ∧ (∀ s b, jsTrim s = "" →
        isContactMethodAvailable (.str s) (.bool b) = false) := by
  refine ⟨isContactMethodAvailable_eq_true_iff c.mobilephone c.donotphone,
          isContactMethodAvailable_eq_true_iff c.emailaddress1 c.donotemail,
          ?_⟩
  intro s b hs
  by_contra h
  rw [Bool.not_eq_false] at h
  obtain ⟨⟨s2, hs2, ht⟩, _⟩ :=
    (isContactMethodAvailable_eq_true_iff (.str s) (.bool b)).mp h
  cases hs2
  exact ht hs

/-- Witness for `channelAvailability_spec`: a populated mobile phone with the
flag false is available, while a whitespace-only value is not. -/
theorem channelAvailability_spec_witness :
    (getContactMethodAvailability
        (some ⟨.str "07700 900123", .str " ", .bool false, .bool false⟩)
      ).mobilePhone = true
    ∧ isContactMethodAvailable (.str " ") (.bool false) = false := by
  constructor
  · exact ((channelAvailability_spec
        ⟨.str "07700 900123", .str " ", .bool false, .bool false⟩).1).mpr
      ⟨⟨"07700 900123", rfl, by decide⟩, rfl⟩
  · exact (channelAvailability_spec
        ⟨.str "07700 900123", .str " ", .bool false, .bool false⟩).2.2
      " " false (by decide)

/-- C9: `updateCaseEmailField` shows and requires the email field exactly
when neither channel is available, and hides it and makes it optional
otherwise, for every channel-availability pair. -/
theorem emailFieldPolicy_spec (m e : Bool) :
    (updateCaseEmailField ⟨m, e⟩ = (true, "required") ↔ m = false ∧ e = false)
    ∧ (updateCaseEmailField ⟨m, e⟩ = (false, "none") ↔ m = true ∨ e = true) := by
  cases m <;> cases e <;> decide

/-- Witness for `emailFieldPolicy_spec`: with no channel available the email
field is shown and required. -/
theorem emailFieldPolicy_spec_witness :
    updateCaseEmailField ⟨false, false⟩ = (true, "required") :=
  ((emailFieldPolicy_spec false false).1).mpr ⟨rfl, rfl⟩

/-- C5: on a contact-typed customer value the two observed script variants
differ — the population variant passes the raw customer lookup through while
the connector variant returns null — and on a null customer or an
account-typed customer the two variants agree, for every account store. -/
theorem contactResolution_variant_divergence :
    (∀ store : Nat → Option AccountRecord,
      populationGetContactLookupValueFromCustomerField store
          (some [⟨7, "Jane Doe", "contact"⟩])
        = .ok (some [⟨7, "Jane Doe", "contact"⟩])
      ∧ connectorGetContactLookupValueFromCustomerField store
          (some [⟨7, "Jane Doe", "contact"⟩])
        = .ok none
      ∧ (some [(⟨7, "Jane Doe", "contact"⟩ : Lookup)] : Option (List Lookup))
          ≠ none)
    ∧ (∀ store, populationGetContactLookupValueFromCustomerField store none
        = connectorGetContactLookupValueFromCustomerField store none)
    ∧ (∀ store (x : Lookup) rest, x.entityType = "account" →
        populationGetContactLookupValueFromCustomerField store (some (x :: rest))
          = connectorGetContactLookupValueFromCustomerField store
              (some (x :: rest))) := by
  refine ⟨fun store => ⟨rfl, rfl, by intro h; cases h⟩, fun store => rfl, ?_⟩
  intro store x rest hx
  unfold populationGetContactLookupValueFromCustomerField
    connectorGetContactLookupValueFromCustomerField readCustomerField
  simp [hx]

/-- Witness for `contactResolution_variant_divergence` on an account-typed
customer with an empty store. -/
theorem contactResolution_variant_divergence_witness :
    populationGetContactLookupValueFromCustomerField (fun _ => none)
        (some [⟨5, "Acme", "account"⟩])
      = connectorGetContactLookupValueFromCustomerField (fun _ => none)
        (some [⟨5, "Acme", "account"⟩]) :=
  contactResolution_variant_divergence.2.2 (fun _ => none)
    ⟨5, "Acme", "account"⟩ [] rfl

/-- C6: for every account-typed customer value whose account record is
retrieved, the connector resolution returns the one-element lookup array
built from the primary contact when it is present, and null when the account
has no primary contact. -/
theorem contactResolution_account_spec
    (store : Nat → Option AccountRecord) (customerValue : Lookup)
    (hacct : customerValue.entityType = "account")
    (account : AccountRecord)
    (hstore : store customerValue.id = some account) :
    (∀ C, account.primarycontactid = some C →
      connectorGetContactLookupValueFromCustomerField store
          (some [customerValue])
        = .ok (some [⟨C.contactid, C.fullname, "contact"⟩]))
    ∧ (account.primarycontactid = none →
      connectorGetContactLookupValueFromCustomerField store
          (some [customerValue])
        = .ok none) := by
  constructor
  · intro C hC
    unfold connectorGetContactLookupValueFromCustomerField readCustomerField
      getPrimaryContactLookupValueFromAccount
      buildPrimaryContactLookupFromAccountRecord
    simp [hacct, hstore, hC]
  · intro h
    unfold connectorGetContactLookupValueFromCustomerField readCustomerField
      getPrimaryContactLookupValueFromAccount
      buildPrimaryContactLookupFromAccountRecord
    simp [hacct, hstore, h]

/-- Witness for `contactResolution_account_spec`: account 5 with primary
contact 9 resolves to a one-element contact lookup array. -/
theorem contactResolution_account_spec_witness :
    connectorGetContactLookupValueFromCustomerField
        (fun _ => some ⟨some ⟨9, "Carol Smith"⟩⟩)
        (some [⟨5, "Acme", "account"⟩])
      = .ok (some [⟨9, "Carol Smith", "contact"⟩]) :=
  (contactResolution_account_spec (fun _ => some ⟨some ⟨9, "Carol Smith"⟩⟩)
      ⟨5, "Acme", "account"⟩ rfl ⟨some ⟨9, "Carol Smith"⟩⟩ rfl).1
    ⟨9, "Carol Smith"⟩ rfl

end ClientScripts
